import Mathlib

/-!
Verification of the encoder strategy selector in
`src/draco/compression/expert_encode.cc` (class `ExpertEncoder`).

The selection logic (`EncodeToBuffer`, `EncodePointCloudToBuffer`,
`EncodeMeshToBuffer`, the configuration setters) is embedded directly from
that source file.  The collaborators that the source file only calls into —
the options bag (`EncoderOptionsBase`), the encoding-method identifier
enumeration (`compression_shared.h`) and the four concrete encoders — are not
part of the provided sources, so they are modelled from the specification:
the options bag as a typed key/value store whose reads take a caller-supplied
default, the identifiers as distinct integers per geometry kind with the
sentinel `-1` meaning "unset", and the concrete encoders as an opaque
delegate function `SelectedEncoder → geometry → options → buffer →
status × buffer` shared by every encode call.
-/

set_option autoImplicit false

namespace Draco

/-- Option key for the globally selected encoding method. -/
def key_encoding_method : String := "encoding_method"

/-- Per-attribute option key for the quantization bit depth. -/
def key_quantization_bits : String := "quantization_bits"

/-- Option key holding the configured encoding speed. -/
def key_encoding_speed : String := "encoding_speed"

/-- Option key holding the configured decoding speed. -/
def key_decoding_speed : String := "decoding_speed"

/-- Option key for the built-in attribute compression toggle. -/
def key_use_built_in_attribute_compression : String :=
  "use_built_in_attribute_compression"

/-- The error message produced by `Status(Status::ERROR, "Invalid encoding method.")`. -/
def msg_invalid_encoding_method : String := "Invalid encoding method."

/-- The error message produced by `Status(Status::ERROR, "Invalid input geometry.")`. -/
def msg_invalid_input : String := "Invalid input geometry."

/-- Attribute semantic type (`GeometryAttribute::Type`); the selector only
distinguishes `POSITION` from everything else. -/
inductive AttributeType where
  | POSITION
  | NORMAL
  | COLOR
  | TEX_COORD
  | GENERIC
  | INVALID
deriving DecidableEq, Repr

/-- Element data type (`draco::DataType`); the selector only distinguishes
`DT_FLOAT32` and `DT_UINT32` from everything else. -/
inductive DataType where
  | DT_INVALID
  | DT_INT8
  | DT_UINT8
  | DT_INT16
  | DT_UINT16
  | DT_INT32
  | DT_UINT32
  | DT_INT64
  | DT_UINT64
  | DT_FLOAT32
  | DT_FLOAT64
  | DT_BOOL
deriving DecidableEq, Repr

/-- One attribute of a point cloud: the three accessors the selector reads
(`attribute_type()`, `num_components()`, `data_type()`). -/
structure PointAttribute where
  attribute_type : AttributeType
  num_components : Nat
  data_type : DataType
deriving DecidableEq, Repr

/-- A point cloud, as the selector sees it: an indexed collection of
attributes (`num_attributes()`, `attribute(i)`). -/
structure PointCloud where
  attributes : List PointAttribute
deriving DecidableEq, Repr

/-- `PointCloud::num_attributes()`. -/
def PointCloud.num_attributes (pc : PointCloud) : Nat :=
  pc.attributes.length

/-- `PointCloud::attribute(i)`.  In C++ the call is an unchecked vector
index; here it is rendered total by returning `none` when `i` is out of
bounds (the selector only dereferences index 0, and only after establishing
that an attribute is in scope or that the caller forced the k-d-tree
method). -/
def PointCloud.attr (pc : PointCloud) (i : Nat) : Option PointAttribute :=
  pc.attributes[i]?

/-- A mesh is a point cloud with connectivity; the selector never inspects
the faces, it only dispatches on their presence. -/
structure Mesh extends PointCloud where
  faces : List (Nat × Nat × Nat)
deriving DecidableEq, Repr

/-- Modelled from the spec: the configuration bag contract of §6 —
`GetGlobalInt(key, default)`, `GetGlobalBool`/`SetGlobalBool`,
`GetAttributeInt(attributeId, key, default)`, `SetAttributeInt`,
`GetSpeed()`; all reads accept a caller-supplied default and never fail on a
missing key.  (`EncoderOptionsBase` is not among the provided sources.) -/
structure EncoderOptions where
  globalInt : String → Option Int
  globalBool : String → Option Bool
  attributeInt : Int → String → Option Int

/-- Modelled from the spec: a fresh, empty option bag. -/
def EncoderOptions.empty : EncoderOptions :=
  ⟨fun _ => none, fun _ => none, fun _ _ => none⟩

/-- Modelled from the spec: `GetGlobalInt(key, default)`. -/
def EncoderOptions.GetGlobalInt (o : EncoderOptions) (key : String) (d : Int) : Int :=
  (o.globalInt key).getD d

/-- Modelled from the spec: `SetGlobalInt(key, value)`. -/
def EncoderOptions.SetGlobalInt (o : EncoderOptions) (key : String) (v : Int) :
    EncoderOptions :=
  { o with globalInt := fun k => if k = key then some v else o.globalInt k }

/-- Modelled from the spec: `GetGlobalBool(key, default)`. -/
def EncoderOptions.GetGlobalBool (o : EncoderOptions) (key : String) (d : Bool) : Bool :=
  (o.globalBool key).getD d

/-- Modelled from the spec: `SetGlobalBool(key, value)`. -/
def EncoderOptions.SetGlobalBool (o : EncoderOptions) (key : String) (v : Bool) :
    EncoderOptions :=
  { o with globalBool := fun k => if k = key then some v else o.globalBool k }

/-- Modelled from the spec: `GetAttributeInt(attributeId, key, default)`. -/
def EncoderOptions.GetAttributeInt (o : EncoderOptions) (id : Int) (key : String)
    (d : Int) : Int :=
  (o.attributeInt id key).getD d

/-- Modelled from the spec: `SetAttributeInt(attributeId, key, value)`. -/
def EncoderOptions.SetAttributeInt (o : EncoderOptions) (id : Int) (key : String)
    (v : Int) : EncoderOptions :=
  { o with attributeInt := fun i k => if i = id ∧ k = key then some v else o.attributeInt i k }

/-- Modelled from the spec: `GetSpeed()` reads the configured encoding speed
(stored under `"encoding_speed"`, with the library default of 5 when the
caller never configured a speed pair). -/
def EncoderOptions.GetSpeed (o : EncoderOptions) : Int :=
  o.GetGlobalInt key_encoding_speed 5

/-- Modelled from the spec: the point-cloud encoding-method identifiers of
`compression_shared.h` (not among the provided sources).  Sequential and
k-d-tree are distinct non-negative integers, so neither collides with the
`-1` sentinel. -/
def POINT_CLOUD_SEQUENTIAL_ENCODING : Int := 0

/-- Modelled from the spec: the k-d-tree point-cloud method identifier. -/
def POINT_CLOUD_KD_TREE_ENCODING : Int := 1

/-- Modelled from the spec: the sequential mesh method identifier. -/
def MESH_SEQUENTIAL_ENCODING : Int := 0

/-- Modelled from the spec: the edge-breaker mesh method identifier. -/
def MESH_EDGEBREAKER_ENCODING : Int := 1

/-- The four concrete encoder classes the selector can instantiate. -/
inductive SelectedEncoder where
  | pointCloudSequential
  | pointCloudKdTree
  | meshSequential
  | meshEdgeBreaker
deriving DecidableEq, Repr

/-- `draco::Status`, restricted to what the selector produces or forwards:
OK or an error carrying a message. -/
inductive Status where
  | ok
  | error (msg : String)
deriving DecidableEq, Repr

/-- The output byte sink (`EncoderBuffer`); the selector never inspects it,
only forwards it. -/
structure EncoderBuffer where
  data : List Nat
deriving DecidableEq, Repr

/-- Modelled from the spec: the downstream collaborator contract of §6.
A delegate stands for `SetPointCloud`/`SetMesh` followed by
`Encode(options, buffer)` on the chosen concrete encoder: it receives the
selected encoder, the bound point-cloud view, the mesh view when one was
bound, the full options and the buffer, and returns the encoder's status
together with the (possibly written) buffer.  The concrete encoders are
deterministic, hence a function. -/
def EncodeDelegate : Type :=
  SelectedEncoder → PointCloud → Option Mesh → EncoderOptions → EncoderBuffer →
    Status × EncoderBuffer

/-- The attribute compatibility checks guarding the k-d-tree encoder in
`ExpertEncoder::EncodePointCloudToBuffer` (the `create_kd_tree_encoder` flag
cascade, rendered as nested conditionals — once the flag is false it stays
false, so the cascade and the nesting agree):
the first attribute must be `POSITION` with 3 components, its data type
must be `DT_FLOAT32` or `DT_UINT32`, and `DT_FLOAT32` additionally needs a
positive `"quantization_bits"` option on attribute 0. -/
def kdTreeChecks (att : PointAttribute) (opts : EncoderOptions) : Bool :=
  if att.attribute_type ≠ AttributeType.POSITION ∨ att.num_components ≠ 3 then
    false
  else if att.data_type ≠ DataType.DT_FLOAT32 ∧ att.data_type ≠ DataType.DT_UINT32 then
    false
  else if att.data_type = DataType.DT_FLOAT32 ∧
      opts.GetAttributeInt 0 key_quantization_bits (-1) ≤ 0 then
    false
  else
    true

/-- The encoder-selection logic of `ExpertEncoder::EncodePointCloudToBuffer`:
enter the k-d-tree branch when the method was explicitly set to k-d-tree or
when the speed is below 10 and the cloud has exactly one attribute; inside
the branch run `kdTreeChecks` on attribute 0, pick the k-d-tree encoder on
success, fail with "Invalid encoding method." when the method was explicit
and the checks failed, and otherwise fall through to the sequential
point-cloud encoder.  (`pc.attribute(0)` on an attribute-less cloud is an
out-of-bounds access in the C++ — reachable only with an explicit k-d-tree
request — and is mapped to the explicit-request failure here.) -/
def encodePointCloudSelect (pc : PointCloud) (opts : EncoderOptions) :
    Except String SelectedEncoder :=
  if opts.GetGlobalInt key_encoding_method (-1) = POINT_CLOUD_KD_TREE_ENCODING ∨
      (opts.GetSpeed < 10 ∧ pc.num_attributes = 1) then
    match pc.attr 0 with
    | some att =>
      if kdTreeChecks att opts then
        Except.ok SelectedEncoder.pointCloudKdTree
      else if opts.GetGlobalInt key_encoding_method (-1) =
          POINT_CLOUD_KD_TREE_ENCODING then
        Except.error msg_invalid_encoding_method
      else
        Except.ok SelectedEncoder.pointCloudSequential
    | none => Except.error msg_invalid_encoding_method
  else
    Except.ok SelectedEncoder.pointCloudSequential

/-- The encoder-selection logic of `ExpertEncoder::EncodeMeshToBuffer`:
read the explicit method, infer it from the speed when unset (speed 10 means
sequential, anything else edge-breaker), then instantiate the edge-breaker
encoder exactly when the resolved method is the edge-breaker identifier and
the sequential mesh encoder otherwise.  Mesh selection never fails. -/
def encodeMeshSelect (opts : EncoderOptions) : Except String SelectedEncoder :=
  if (if opts.GetGlobalInt key_encoding_method (-1) = -1 then
        (if opts.GetSpeed = 10 then MESH_SEQUENTIAL_ENCODING
         else MESH_EDGEBREAKER_ENCODING)
      else opts.GetGlobalInt key_encoding_method (-1)) =
      MESH_EDGEBREAKER_ENCODING then
    Except.ok SelectedEncoder.meshEdgeBreaker
  else
    Except.ok SelectedEncoder.meshSequential

/-- `ExpertEncoder::EncodePointCloudToBuffer`: run the selection; a selection
failure is returned before any encoder is constructed, with the buffer
untouched; otherwise the chosen encoder is constructed, bound to the point
cloud and delegated to. -/
def EncodePointCloudToBuffer (delegate : EncodeDelegate) (pc : PointCloud)
    (opts : EncoderOptions) (buf : EncoderBuffer) : Status × EncoderBuffer :=
  match encodePointCloudSelect pc opts with
  | Except.error msg => (Status.error msg, buf)
  | Except.ok enc => delegate enc pc none opts buf

/-- `ExpertEncoder::EncodeMeshToBuffer`: run the mesh selection (which never
fails), bind the mesh to the chosen encoder and delegate. -/
def EncodeMeshToBuffer (delegate : EncodeDelegate) (m : Mesh)
    (opts : EncoderOptions) (buf : EncoderBuffer) : Status × EncoderBuffer :=
  match encodeMeshSelect opts with
  | Except.error msg => (Status.error msg, buf)
  | Except.ok enc => delegate enc m.toPointCloud (some m) opts buf

/-- The `ExpertEncoder` state: the non-owning point-cloud view `point_cloud_`,
the optional mesh view `mesh_`, and the options bag of the base class. -/
structure ExpertEncoder where
  point_cloud_ : Option PointCloud
  mesh_ : Option Mesh
  options_ : EncoderOptions

/-- `ExpertEncoder::ExpertEncoder(const PointCloud &)`: binds the point
cloud, leaves the mesh view null. -/
def ExpertEncoder.fromPointCloud (pc : PointCloud) : ExpertEncoder :=
  ⟨some pc, none, EncoderOptions.empty⟩

/-- `ExpertEncoder::ExpertEncoder(const Mesh &)`: binds the mesh; the
point-cloud view aliases the same object (upcast). -/
def ExpertEncoder.fromMesh (m : Mesh) : ExpertEncoder :=
  ⟨some m.toPointCloud, some m, EncoderOptions.empty⟩

/-- `ExpertEncoder::EncodeToBuffer`: fail with "Invalid input geometry." when
no geometry is bound; otherwise dispatch on the presence of the mesh view
and return the sub-procedure's result unmodified. -/
def ExpertEncoder.EncodeToBuffer (delegate : EncodeDelegate) (e : ExpertEncoder)
    (buf : EncoderBuffer) : Status × EncoderBuffer :=
  match e.point_cloud_ with
  | none => (Status.error msg_invalid_input, buf)
  | some pc =>
    match e.mesh_ with
    | none => EncodePointCloudToBuffer delegate pc e.options_ buf
    | some m => EncodeMeshToBuffer delegate m e.options_ buf

/-- `ExpertEncoder::SetEncodingMethod` (via `EncoderBase`): stores the
identifier under the global `"encoding_method"` key. -/
def ExpertEncoder.SetEncodingMethod (e : ExpertEncoder) (m : Int) : ExpertEncoder :=
  { e with options_ := e.options_.SetGlobalInt key_encoding_method m }

/-- `ExpertEncoder::SetSpeedOptions` (via `EncoderBase`): stores the two
speeds under the global speed keys. -/
def ExpertEncoder.SetSpeedOptions (e : ExpertEncoder) (es ds : Int) : ExpertEncoder :=
  { e with options_ := (e.options_.SetGlobalInt key_encoding_speed es).SetGlobalInt key_decoding_speed ds }

/-- `ExpertEncoder::SetAttributeQuantization`: stores the bit depth under the
`"quantization_bits"` key of the given attribute id. -/
def ExpertEncoder.SetAttributeQuantization (e : ExpertEncoder) (attribute_id : Int)
    (quantization_bits : Int) : ExpertEncoder :=
  { e with options_ := e.options_.SetAttributeInt attribute_id key_quantization_bits quantization_bits }

/-- `ExpertEncoder::SetUseBuiltInAttributeCompression`. -/
def ExpertEncoder.SetUseBuiltInAttributeCompression (e : ExpertEncoder)
    (enabled : Bool) : ExpertEncoder :=
  { e with options_ := e.options_.SetGlobalBool key_use_built_in_attribute_compression enabled }

/-! Concrete sample geometries, options and a delegate, used to exercise the
selection logic on closed inputs. -/

/-- A POSITION attribute with 3 components of unsigned 32-bit integers. -/
def posAttU32 : PointAttribute :=
  ⟨AttributeType.POSITION, 3, DataType.DT_UINT32⟩

/-- A POSITION attribute with 3 components of 32-bit floats. -/
def posAttF32 : PointAttribute :=
  ⟨AttributeType.POSITION, 3, DataType.DT_FLOAT32⟩

/-- A one-component GENERIC byte attribute. -/
def genAtt : PointAttribute :=
  ⟨AttributeType.GENERIC, 1, DataType.DT_UINT8⟩

/-- A point cloud with a single integer POSITION attribute. -/
def pcOne : PointCloud := ⟨[posAttU32]⟩

/-- A point cloud with a single float POSITION attribute. -/
def pcOneF32 : PointCloud := ⟨[posAttF32]⟩

/-- A two-attribute point cloud whose first attribute is an integer
POSITION. -/
def pcTwo : PointCloud := ⟨[posAttU32, genAtt]⟩

/-- A two-attribute point cloud whose first attribute fails the k-d-tree
checks. -/
def pcTwoBad : PointCloud := ⟨[genAtt, posAttU32]⟩

/-- A one-triangle mesh over a single integer POSITION attribute. -/
def meshSample : Mesh := ⟨⟨[posAttU32]⟩, [(0, 1, 2)]⟩

/-- A delegate standing for concrete encoders that succeed without writing. -/
def trivialDelegate : EncodeDelegate := fun _ _ _ _ buf => (Status.ok, buf)

/-- A delegate standing for concrete encoders that succeed after appending
one byte to the buffer. -/
def writingDelegate : EncodeDelegate := fun _ _ _ _ buf => (Status.ok, ⟨buf.data ++ [42]⟩)

/-- An empty output buffer. -/
def emptyBuffer : EncoderBuffer := ⟨[]⟩

/-! Helper lemmas about the selection functions. -/

/-- `kdTreeChecks` passes exactly for a 3-component POSITION attribute whose
data type is `DT_UINT32`, or `DT_FLOAT32` with a positive
`"quantization_bits"` option on attribute 0. -/
theorem kdTreeChecks_iff (att : PointAttribute) (opts : EncoderOptions) :
    kdTreeChecks att opts = true ↔
      att.attribute_type = AttributeType.POSITION ∧ att.num_components = 3 ∧
        (att.data_type = DataType.DT_UINT32 ∨
          (att.data_type = DataType.DT_FLOAT32 ∧
            0 < opts.GetAttributeInt 0 key_quantization_bits (-1))) := by
  unfold kdTreeChecks
  split_ifs with h1 h2 h3
  · simp only [Bool.false_eq_true, false_iff]
    rintro ⟨hp, hc, _⟩
    exact h1.elim (fun h => h hp) (fun h => h hc)
  · push_neg at h1
    simp only [Bool.false_eq_true, false_iff]
    rintro ⟨-, -, hd⟩
    rcases hd with hd | ⟨hd, -⟩
    · exact h2.2 hd
    · exact h2.1 hd
  · push_neg at h1
    simp only [Bool.false_eq_true, false_iff]
    rintro ⟨-, -, hd⟩
    rcases hd with hd | ⟨-, hq⟩
    · rw [hd] at h3; exact absurd h3.1 (by simp)
    · omega
  · push_neg at h1 h2
    simp only [true_iff]
    refine ⟨h1.1, h1.2, ?_⟩
    by_cases hf : att.data_type = DataType.DT_FLOAT32
    · right
      refine ⟨hf, ?_⟩
      by_contra hq
      exact h3 ⟨hf, by omega⟩
    · exact Or.inl (h2 hf)

/-- Outside the k-d-tree gate, the sequential point-cloud encoder is
selected. -/
theorem encodePointCloudSelect_not_gate (pc : PointCloud) (opts : EncoderOptions)
    (h : ¬(opts.GetGlobalInt key_encoding_method (-1) = POINT_CLOUD_KD_TREE_ENCODING ∨
      (opts.GetSpeed < 10 ∧ pc.num_attributes = 1))) :
    encodePointCloudSelect pc opts = Except.ok SelectedEncoder.pointCloudSequential := by
  unfold encodePointCloudSelect
  rw [if_neg h]

/-- Inside the k-d-tree gate, selection reduces to the attribute checks on
attribute 0 and the explicit-request test. -/
theorem encodePointCloudSelect_gate (pc : PointCloud) (opts : EncoderOptions)
    (att : PointAttribute)
    (hgate : opts.GetGlobalInt key_encoding_method (-1) = POINT_CLOUD_KD_TREE_ENCODING ∨
      (opts.GetSpeed < 10 ∧ pc.num_attributes = 1))
    (ha : pc.attr 0 = some att) :
    encodePointCloudSelect pc opts =
      (if kdTreeChecks att opts then Except.ok SelectedEncoder.pointCloudKdTree
       else if opts.GetGlobalInt key_encoding_method (-1) = POINT_CLOUD_KD_TREE_ENCODING
       then Except.error msg_invalid_encoding_method
       else Except.ok SelectedEncoder.pointCloudSequential) := by
  unfold encodePointCloudSelect
  rw [if_pos hgate, ha]

/-- A point cloud with exactly one attribute has an attribute at index 0. -/
theorem attr0_of_length_one (pc : PointCloud) (h : pc.num_attributes = 1) :
    ∃ att, pc.attr 0 = some att := by
  unfold PointCloud.num_attributes at h
  unfold PointCloud.attr
  cases hpc : pc.attributes with
  | nil => rw [hpc] at h; simp at h
  | cons a t => exact ⟨a, by simp⟩

/-- The k-d-tree encoder can only come out of the gate. -/
theorem kdTree_only_in_gate (pc : PointCloud) (opts : EncoderOptions)
    (h : encodePointCloudSelect pc opts = Except.ok SelectedEncoder.pointCloudKdTree) :
    opts.GetGlobalInt key_encoding_method (-1) = POINT_CLOUD_KD_TREE_ENCODING ∨
      (opts.GetSpeed < 10 ∧ pc.num_attributes = 1) := by
  by_contra hgate
  rw [encodePointCloudSelect_not_gate pc opts hgate] at h
  exact absurd h (by simp)

/-- Point-cloud selection only reads the method, the speed and attribute 0's
quantization bits from the options. -/
theorem encodePointCloudSelect_congr (pc : PointCloud) (o1 o2 : EncoderOptions)
    (hg : o1.GetGlobalInt key_encoding_method (-1) =
      o2.GetGlobalInt key_encoding_method (-1))
    (hs : o1.GetSpeed = o2.GetSpeed)
    (hq : o1.GetAttributeInt 0 key_quantization_bits (-1) =
      o2.GetAttributeInt 0 key_quantization_bits (-1)) :
    encodePointCloudSelect pc o1 = encodePointCloudSelect pc o2 := by
  have hk : ∀ att, kdTreeChecks att o1 = kdTreeChecks att o2 := by
    intro att
    unfold kdTreeChecks
    rw [hq]
  unfold encodePointCloudSelect
  simp only [hg, hs, hk]

/-- Mesh selection only reads the method and the speed from the options. -/
theorem encodeMeshSelect_congr (o1 o2 : EncoderOptions)
    (hg : o1.GetGlobalInt key_encoding_method (-1) =
      o2.GetGlobalInt key_encoding_method (-1))
    (hs : o1.GetSpeed = o2.GetSpeed) :
    encodeMeshSelect o1 = encodeMeshSelect o2 := by
  unfold encodeMeshSelect
  rw [hg, hs]

/-! The claims. -/

/-- C1, counterexample: on a mesh with `"encoding_method"` explicitly set to
7 — neither the sequential mesh identifier (0) nor the edge-breaker
identifier (1) — `EncodeToBuffer` does not fail: it delegates to the
sequential mesh encoder and returns the delegate's OK status. -/
theorem claim_C1_counterexample :
    (7 : Int) ≠ MESH_SEQUENTIAL_ENCODING ∧ (7 : Int) ≠ MESH_EDGEBREAKER_ENCODING ∧
      ExpertEncoder.EncodeToBuffer trivialDelegate
          ((ExpertEncoder.fromMesh meshSample).SetEncodingMethod 7) emptyBuffer =
        (Status.ok, emptyBuffer) :=
  ⟨by decide, by decide, rfl⟩

/-- C1, amended: for a mesh, if the global `"encoding_method"` option is
explicitly set to a value (other than the `-1` sentinel) that is neither the
sequential mesh identifier nor the edge-breaker identifier, `EncodeToBuffer`
does not fail: the value is treated as "not edge-breaker", the sequential
mesh encoder is selected, and the call delegates to it. -/
theorem claim_C1_amended (opts : EncoderOptions) (m : Int)
    (hm : opts.GetGlobalInt key_encoding_method (-1) = m)
    (hsent : m ≠ -1) (h0 : m ≠ MESH_SEQUENTIAL_ENCODING)
    (h1 : m ≠ MESH_EDGEBREAKER_ENCODING) :
    encodeMeshSelect opts = Except.ok SelectedEncoder.meshSequential ∧
      ∀ (delegate : EncodeDelegate) (msh : Mesh) (buf : EncoderBuffer),
        EncodeMeshToBuffer delegate msh opts buf =
          delegate SelectedEncoder.meshSequential msh.toPointCloud (some msh) opts
            buf := by
  have hsel : encodeMeshSelect opts = Except.ok SelectedEncoder.meshSequential := by
    unfold encodeMeshSelect
    rw [hm, if_neg hsent, if_neg h1]
  refine ⟨hsel, fun delegate msh buf => ?_⟩
  unfold EncodeMeshToBuffer
  rw [hsel]

/-- C1, witness: the amended statement evaluated with the method explicitly
set to 7 on a concrete mesh. -/
theorem claim_C1_witness :
    encodeMeshSelect (EncoderOptions.empty.SetGlobalInt key_encoding_method 7) =
        Except.ok SelectedEncoder.meshSequential ∧
      EncodeMeshToBuffer trivialDelegate meshSample
          (EncoderOptions.empty.SetGlobalInt key_encoding_method 7) emptyBuffer =
        trivialDelegate SelectedEncoder.meshSequential meshSample.toPointCloud
          (some meshSample) (EncoderOptions.empty.SetGlobalInt key_encoding_method 7)
          emptyBuffer :=
  ⟨(claim_C1_amended (EncoderOptions.empty.SetGlobalInt key_encoding_method 7) 7 rfl
      (by decide) (by decide) (by decide)).1,
    (claim_C1_amended (EncoderOptions.empty.SetGlobalInt key_encoding_method 7) 7 rfl
      (by decide) (by decide) (by decide)).2 trivialDelegate meshSample emptyBuffer⟩

/-- C2, counterexample: a point cloud with exactly 2 attributes whose first
attribute passes the k-d-tree checks, with `"encoding_method"` explicitly
set to the k-d-tree identifier: the call does not fail — the k-d-tree
encoder is selected and the delegate (here one that appends a byte) writes
the buffer. -/
theorem claim_C2_counterexample :
    pcTwo.num_attributes = 2 ∧
      encodePointCloudSelect pcTwo
          (EncoderOptions.empty.SetGlobalInt key_encoding_method
            POINT_CLOUD_KD_TREE_ENCODING) =
        Except.ok SelectedEncoder.pointCloudKdTree ∧
      ExpertEncoder.EncodeToBuffer writingDelegate
          ((ExpertEncoder.fromPointCloud pcTwo).SetEncodingMethod
            POINT_CLOUD_KD_TREE_ENCODING) emptyBuffer =
        (Status.ok, ⟨[42]⟩) :=
  ⟨rfl, rfl, rfl⟩

/-- C2, amended: for a point cloud with exactly 2 attributes and
`"encoding_method"` explicitly set to the k-d-tree identifier, the call
fails with `InvalidEncodingMethod` — leaving the buffer unwritten — exactly
when the first attribute fails the k-d-tree attribute checks; when the
first attribute passes them, the k-d-tree encoder is selected despite the
second attribute. -/
theorem claim_C2_amended (pc : PointCloud) (opts : EncoderOptions)
    (att : PointAttribute) (h2 : pc.num_attributes = 2)
    (hm : opts.GetGlobalInt key_encoding_method (-1) = POINT_CLOUD_KD_TREE_ENCODING)
    (ha : pc.attr 0 = some att) :
    (kdTreeChecks att opts = false →
      ∀ (delegate : EncodeDelegate) (buf : EncoderBuffer),
        EncodePointCloudToBuffer delegate pc opts buf =
          (Status.error msg_invalid_encoding_method, buf)) ∧
      (kdTreeChecks att opts = true →
        encodePointCloudSelect pc opts = Except.ok SelectedEncoder.pointCloudKdTree) := by
  have hgate := encodePointCloudSelect_gate pc opts att (Or.inl hm) ha
  constructor
  · intro hfail delegate buf
    have hsel : encodePointCloudSelect pc opts =
        Except.error msg_invalid_encoding_method := by
      rw [hgate, hfail, if_pos hm]
      simp
    unfold EncodePointCloudToBuffer
    rw [hsel]
  · intro hpass
    rw [hgate, hpass]
    simp

/-- C2, witness: the amended statement evaluated on a 2-attribute cloud
whose first attribute is GENERIC (fails the checks) with an explicit
k-d-tree request. -/
theorem claim_C2_witness :
    EncodePointCloudToBuffer trivialDelegate pcTwoBad
        (EncoderOptions.empty.SetGlobalInt key_encoding_method
          POINT_CLOUD_KD_TREE_ENCODING) emptyBuffer =
      (Status.error msg_invalid_encoding_method, emptyBuffer) :=
  (claim_C2_amended pcTwoBad
      (EncoderOptions.empty.SetGlobalInt key_encoding_method
        POINT_CLOUD_KD_TREE_ENCODING) genAtt rfl rfl rfl).1 rfl trivialDelegate
    emptyBuffer

/-- C3, counterexample: a single-attribute POSITION/3/uint32 point cloud at
the default speed (5, below 10) with `"encoding_method"` explicitly set to
7 — neither point-cloud identifier: the k-d-tree encoder is selected, not
the sequential one. -/
theorem claim_C3_counterexample :
    (7 : Int) ≠ POINT_CLOUD_SEQUENTIAL_ENCODING ∧
      (7 : Int) ≠ POINT_CLOUD_KD_TREE_ENCODING ∧
      encodePointCloudSelect pcOne
          (EncoderOptions.empty.SetGlobalInt key_encoding_method 7) =
        Except.ok SelectedEncoder.pointCloudKdTree :=
  ⟨by decide, by decide, rfl⟩

/-- C3, amended: for every point cloud, if `"encoding_method"` is explicitly
set to a value matching neither point-cloud identifier, the selection does
not crash and never fails: the sequential encoder is selected unless the
heuristic gate applies (speed below 10 and exactly one attribute, whose
first attribute passes the k-d-tree checks), in which case the k-d-tree
encoder is selected. -/
theorem claim_C3_amended (pc : PointCloud) (opts : EncoderOptions) (m : Int)
    (hm : opts.GetGlobalInt key_encoding_method (-1) = m)
    (h0 : m ≠ POINT_CLOUD_SEQUENTIAL_ENCODING)
    (h1 : m ≠ POINT_CLOUD_KD_TREE_ENCODING) :
    (∀ msg, encodePointCloudSelect pc opts ≠ Except.error msg) ∧
      (encodePointCloudSelect pc opts = Except.ok SelectedEncoder.pointCloudKdTree ∨
        encodePointCloudSelect pc opts = Except.ok SelectedEncoder.pointCloudSequential) ∧
      (encodePointCloudSelect pc opts = Except.ok SelectedEncoder.pointCloudKdTree ↔
        opts.GetSpeed < 10 ∧ pc.num_attributes = 1 ∧
          ∃ att, pc.attr 0 = some att ∧ kdTreeChecks att opts = true) := by
  have hmne : opts.GetGlobalInt key_encoding_method (-1) ≠
      POINT_CLOUD_KD_TREE_ENCODING := by rw [hm]; exact h1
  by_cases hg : opts.GetSpeed < 10 ∧ pc.num_attributes = 1
  · obtain ⟨att, ha⟩ := attr0_of_length_one pc hg.2
    have hgate := encodePointCloudSelect_gate pc opts att (Or.inr hg) ha
    by_cases hc : kdTreeChecks att opts = true
    · have hsel : encodePointCloudSelect pc opts =
          Except.ok SelectedEncoder.pointCloudKdTree := by
        rw [hgate, hc]
        simp
      rw [hsel]
      exact ⟨by simp, Or.inl rfl, iff_of_true rfl ⟨hg.1, hg.2, att, ha, hc⟩⟩
    · have hcf : kdTreeChecks att opts = false := by
        cases hx : kdTreeChecks att opts
        · rfl
        · exact absurd hx hc
      have hsel : encodePointCloudSelect pc opts =
          Except.ok SelectedEncoder.pointCloudSequential := by
        rw [hgate, hcf]
        simp [hmne]
      rw [hsel]
      refine ⟨by simp, Or.inr rfl, iff_of_false (by simp) ?_⟩
      rintro ⟨-, -, att', ha', hc'⟩
      rw [ha] at ha'
      cases ha'
      exact absurd hc' hc
  · have hsel := encodePointCloudSelect_not_gate pc opts (by
      rintro (h | h)
      · exact hmne h
      · exact hg h)
    rw [hsel]
    refine ⟨by simp, Or.inr rfl, iff_of_false (by simp) ?_⟩
    rintro ⟨hs, hn, -⟩
    exact hg ⟨hs, hn⟩

/-- C3, witness: the amended statement evaluated at method value 7 on a
single-attribute POSITION cloud at default speed. -/
theorem claim_C3_witness :
    encodePointCloudSelect pcOne
          (EncoderOptions.empty.SetGlobalInt key_encoding_method 7) =
        Except.ok SelectedEncoder.pointCloudKdTree ∨
      encodePointCloudSelect pcOne
          (EncoderOptions.empty.SetGlobalInt key_encoding_method 7) =
        Except.ok SelectedEncoder.pointCloudSequential :=
  (claim_C3_amended pcOne (EncoderOptions.empty.SetGlobalInt key_encoding_method 7)
    7 rfl (by decide) (by decide)).2.1

/-- C4: for a point cloud with exactly one attribute that passes the
k-d-tree attribute checks (POSITION, 3 components, uint32 or float32 with
positive quantization bits) at speed below 10, the k-d-tree encoder is
selected even when `"encoding_method"` was explicitly set to a
non-k-d-tree value: an explicit non-k-d-tree method does not disable the
heuristic gate. -/
theorem claim_C4 (pc : PointCloud) (opts : EncoderOptions) (att : PointAttribute)
    (m : Int) (hm : opts.GetGlobalInt key_encoding_method (-1) = m)
    (hnkd : m ≠ POINT_CLOUD_KD_TREE_ENCODING)
    (h1 : pc.num_attributes = 1) (ha : pc.attr 0 = some att)
    (hpos : att.attribute_type = AttributeType.POSITION)
    (hcomp : att.num_components = 3)
    (hdt : att.data_type = DataType.DT_UINT32 ∨
      (att.data_type = DataType.DT_FLOAT32 ∧
        0 < opts.GetAttributeInt 0 key_quantization_bits (-1)))
    (hspeed : opts.GetSpeed < 10) :
    encodePointCloudSelect pc opts = Except.ok SelectedEncoder.pointCloudKdTree := by
  have hc : kdTreeChecks att opts = true :=
    (kdTreeChecks_iff att opts).2 ⟨hpos, hcomp, hdt⟩
  rw [encodePointCloudSelect_gate pc opts att (Or.inr ⟨hspeed, h1⟩) ha, hc]
  simp

/-- C4, witness: the statement evaluated with the method explicitly set to
the sequential point-cloud identifier on a POSITION/3/uint32 cloud at the
default speed 5. -/
theorem claim_C4_witness :
    encodePointCloudSelect pcOne
        (EncoderOptions.empty.SetGlobalInt key_encoding_method
          POINT_CLOUD_SEQUENTIAL_ENCODING) =
      Except.ok SelectedEncoder.pointCloudKdTree :=
  claim_C4 pcOne
    (EncoderOptions.empty.SetGlobalInt key_encoding_method
      POINT_CLOUD_SEQUENTIAL_ENCODING) posAttU32 POINT_CLOUD_SEQUENTIAL_ENCODING rfl
    (by decide) rfl rfl rfl rfl (Or.inl rfl) (by decide)

/-- C5: with no explicit `"encoding_method"` set (the `-1` sentinel), a
point cloud with more than one attribute, or with speed at the maximum
tier, gets the sequential point-cloud encoder; and the k-d-tree encoder is
never selected outside the gate (explicit k-d-tree request, or speed below
the maximum and exactly one attribute). -/
theorem claim_C5 (pc : PointCloud) (opts : EncoderOptions)
    (hm : opts.GetGlobalInt key_encoding_method (-1) = -1) :
    ((1 < pc.num_attributes ∨ opts.GetSpeed = 10) →
      encodePointCloudSelect pc opts = Except.ok SelectedEncoder.pointCloudSequential) ∧
      (encodePointCloudSelect pc opts = Except.ok SelectedEncoder.pointCloudKdTree →
        opts.GetGlobalInt key_encoding_method (-1) = POINT_CLOUD_KD_TREE_ENCODING ∨
          (opts.GetSpeed < 10 ∧ pc.num_attributes = 1)) := by
  constructor
  · intro h
    apply encodePointCloudSelect_not_gate
    rintro (hkd | ⟨hs, hn⟩)
    · rw [hm] at hkd
      exact absurd hkd (by decide)
    · rcases h with h | h
      · omega
      · rw [h] at hs
        exact absurd hs (by decide)
  · exact kdTree_only_in_gate pc opts

/-- C5, witness: a 2-attribute cloud with empty options (method unset,
default speed 5) gets the sequential encoder. -/
theorem claim_C5_witness :
    encodePointCloudSelect pcTwo EncoderOptions.empty =
      Except.ok SelectedEncoder.pointCloudSequential :=
  (claim_C5 pcTwo EncoderOptions.empty rfl).1 (Or.inl (by decide))

/-- C6: once the k-d-tree gate is entered on a cloud whose attribute 0
exists, the k-d-tree encoder is selected iff that attribute is POSITION
with 3 components and data type uint32, or float32 with a positive
`"quantization_bits"` option on attribute 0; and when the method was not
explicitly k-d-tree and the checks fail, the sequential encoder is
selected. -/
theorem claim_C6 (pc : PointCloud) (opts : EncoderOptions) (att : PointAttribute)
    (hgate : opts.GetGlobalInt key_encoding_method (-1) = POINT_CLOUD_KD_TREE_ENCODING ∨
      (opts.GetSpeed < 10 ∧ pc.num_attributes = 1))
    (ha : pc.attr 0 = some att) :
    (encodePointCloudSelect pc opts = Except.ok SelectedEncoder.pointCloudKdTree ↔
      att.attribute_type = AttributeType.POSITION ∧ att.num_components = 3 ∧
        (att.data_type = DataType.DT_UINT32 ∨
          (att.data_type = DataType.DT_FLOAT32 ∧
            0 < opts.GetAttributeInt 0 key_quantization_bits (-1)))) ∧
      (opts.GetGlobalInt key_encoding_method (-1) ≠ POINT_CLOUD_KD_TREE_ENCODING →
        kdTreeChecks att opts = false →
        encodePointCloudSelect pc opts = Except.ok SelectedEncoder.pointCloudSequential) := by
  have hsel := encodePointCloudSelect_gate pc opts att hgate ha
  constructor
  · by_cases hc : kdTreeChecks att opts = true
    · rw [hsel, hc]
      exact iff_of_true (by simp) ((kdTreeChecks_iff att opts).1 hc)
    · have hcf : kdTreeChecks att opts = false := by
        cases hx : kdTreeChecks att opts
        · rfl
        · exact absurd hx hc
      refine iff_of_false ?_ (fun hr => hc ((kdTreeChecks_iff att opts).2 hr))
      intro h
      rw [hsel, hcf] at h
      simp only [Bool.false_eq_true, if_false] at h
      split at h
      · exact absurd h (by simp)
      · exact absurd h (by simp)
  · intro hne hcf
    rw [hsel, hcf]
    simp [hne]

/-- C6, witness: a single-attribute POSITION/3/uint32 cloud at default speed
gets k-d-tree; the same with float32 and no quantization option gets the
sequential encoder. -/
theorem claim_C6_witness :
    encodePointCloudSelect pcOne EncoderOptions.empty =
        Except.ok SelectedEncoder.pointCloudKdTree ∧
      encodePointCloudSelect pcOneF32 EncoderOptions.empty =
        Except.ok SelectedEncoder.pointCloudSequential :=
  ⟨(claim_C6 pcOne EncoderOptions.empty posAttU32 (Or.inr ⟨by decide, rfl⟩) rfl).1.2
      ⟨rfl, rfl, Or.inl rfl⟩,
    (claim_C6 pcOneF32 EncoderOptions.empty posAttF32 (Or.inr ⟨by decide, rfl⟩) rfl).2
      (by decide) rfl⟩

/-- C7: for a mesh with no explicit `"encoding_method"` set, the method is
inferred from the speed alone — speed 10 selects the sequential mesh
encoder, any other speed the edge-breaker encoder. -/
theorem claim_C7 (opts : EncoderOptions)
    (hm : opts.GetGlobalInt key_encoding_method (-1) = -1) :
    (opts.GetSpeed = 10 →
      encodeMeshSelect opts = Except.ok SelectedEncoder.meshSequential) ∧
      (opts.GetSpeed ≠ 10 →
        encodeMeshSelect opts = Except.ok SelectedEncoder.meshEdgeBreaker) := by
  constructor
  · intro hs
    unfold encodeMeshSelect
    rw [hm, hs]
    simp [MESH_SEQUENTIAL_ENCODING, MESH_EDGEBREAKER_ENCODING]
  · intro hs
    unfold encodeMeshSelect
    rw [hm]
    simp [hs, MESH_SEQUENTIAL_ENCODING, MESH_EDGEBREAKER_ENCODING]

/-- C7, witness: speed 10 configured yields the sequential mesh encoder;
the default speed (5) yields edge-breaker. -/
theorem claim_C7_witness :
    encodeMeshSelect (EncoderOptions.empty.SetGlobalInt key_encoding_speed 10) =
        Except.ok SelectedEncoder.meshSequential ∧
      encodeMeshSelect EncoderOptions.empty =
        Except.ok SelectedEncoder.meshEdgeBreaker :=
  ⟨(claim_C7 (EncoderOptions.empty.SetGlobalInt key_encoding_speed 10) rfl).1 rfl,
    (claim_C7 EncoderOptions.empty rfl).2 (by decide)⟩

/-- C8: `EncodeToBuffer` fails with the invalid-input error exactly on an
unbound selector and otherwise passes the sub-procedure's result through
unmodified (point-cloud procedure when the mesh view is absent, mesh
procedure when present); both constructors bind a point cloud, so the
invalid-input branch is unreachable for a constructed selector. -/
theorem claim_C8 (delegate : EncodeDelegate) (e : ExpertEncoder) (buf : EncoderBuffer) :
    (e.point_cloud_ = none →
      ExpertEncoder.EncodeToBuffer delegate e buf =
        (Status.error msg_invalid_input, buf)) ∧
      (∀ pc, e.point_cloud_ = some pc → e.mesh_ = none →
        ExpertEncoder.EncodeToBuffer delegate e buf =
          EncodePointCloudToBuffer delegate pc e.options_ buf) ∧
      (∀ pc msh, e.point_cloud_ = some pc → e.mesh_ = some msh →
        ExpertEncoder.EncodeToBuffer delegate e buf =
          EncodeMeshToBuffer delegate msh e.options_ buf) ∧
      (∀ pc2, (ExpertEncoder.fromPointCloud pc2).point_cloud_ ≠ none) ∧
      (∀ msh2, (ExpertEncoder.fromMesh msh2).point_cloud_ ≠ none) := by
  refine ⟨?_, ?_, ?_, ?_, ?_⟩
  · intro h
    unfold ExpertEncoder.EncodeToBuffer
    rw [h]
  · intro pc hpc hmn
    unfold ExpertEncoder.EncodeToBuffer
    rw [hpc, hmn]
  · intro pc msh hpc hms
    unfold ExpertEncoder.EncodeToBuffer
    rw [hpc, hms]
  · intro pc2
    simp [ExpertEncoder.fromPointCloud]
  · intro msh2
    simp [ExpertEncoder.fromMesh]

/-- C8, witness: a selector constructed over a point cloud dispatches to the
point-cloud procedure. -/
theorem claim_C8_witness :
    ExpertEncoder.EncodeToBuffer trivialDelegate (ExpertEncoder.fromPointCloud pcOne)
        emptyBuffer =
      EncodePointCloudToBuffer trivialDelegate pcOne
        (ExpertEncoder.fromPointCloud pcOne).options_ emptyBuffer :=
  (claim_C8 trivialDelegate (ExpertEncoder.fromPointCloud pcOne) emptyBuffer).2.1 pcOne
    rfl rfl

/-- C9: `SetAttributeQuantization(id, bits)` writes only the
`"quantization_bits"` option of attribute `id`: every other attribute-id /
key pair, every global option, the speed and the bound geometry views are
unchanged, and for `id ≠ 0` both selection procedures behave identically
before and after the call. -/
theorem claim_C9 (e : ExpertEncoder) (attribute_id bits : Int) :
    ((e.SetAttributeQuantization attribute_id bits).options_.GetAttributeInt
        attribute_id key_quantization_bits (-1) = bits) ∧
      (∀ i k d, i ≠ attribute_id ∨ k ≠ key_quantization_bits →
        (e.SetAttributeQuantization attribute_id bits).options_.GetAttributeInt i k d =
          e.options_.GetAttributeInt i k d) ∧
      (∀ k d, (e.SetAttributeQuantization attribute_id bits).options_.GetGlobalInt k d =
        e.options_.GetGlobalInt k d) ∧
      ((e.SetAttributeQuantization attribute_id bits).options_.GetSpeed =
        e.options_.GetSpeed) ∧
      ((e.SetAttributeQuantization attribute_id bits).point_cloud_ = e.point_cloud_ ∧
        (e.SetAttributeQuantization attribute_id bits).mesh_ = e.mesh_) ∧
      (attribute_id ≠ 0 → ∀ pc,
        encodePointCloudSelect pc
            (e.SetAttributeQuantization attribute_id bits).options_ =
          encodePointCloudSelect pc e.options_) ∧
      (encodeMeshSelect (e.SetAttributeQuantization attribute_id bits).options_ =
        encodeMeshSelect e.options_) := by
  have hframe : ∀ i k d, i ≠ attribute_id ∨ k ≠ key_quantization_bits →
      (e.SetAttributeQuantization attribute_id bits).options_.GetAttributeInt i k d =
        e.options_.GetAttributeInt i k d := by
    intro i k d h
    simp only [ExpertEncoder.SetAttributeQuantization, EncoderOptions.SetAttributeInt,
      EncoderOptions.GetAttributeInt]
    rw [if_neg (by tauto)]
  refine ⟨?_, hframe, fun k d => rfl, rfl, ⟨rfl, rfl⟩, ?_, ?_⟩
  · simp [ExpertEncoder.SetAttributeQuantization, EncoderOptions.SetAttributeInt,
      EncoderOptions.GetAttributeInt]
  · intro hid pc
    apply encodePointCloudSelect_congr
    · rfl
    · rfl
    · exact hframe 0 key_quantization_bits (-1) (Or.inl (fun h => hid h.symm))
  · exact encodeMeshSelect_congr _ _ rfl rfl

/-- C9, witness: setting quantization on attribute id 1 leaves attribute 0's
quantization option and the point-cloud selection unchanged. -/
theorem claim_C9_witness :
    ((ExpertEncoder.fromPointCloud pcOne).SetAttributeQuantization 1 8).options_.GetAttributeInt
          0 key_quantization_bits (-1) =
        (ExpertEncoder.fromPointCloud pcOne).options_.GetAttributeInt 0
          key_quantization_bits (-1) ∧
      encodePointCloudSelect pcOne
          ((ExpertEncoder.fromPointCloud pcOne).SetAttributeQuantization 1 8).options_ =
        encodePointCloudSelect pcOne (ExpertEncoder.fromPointCloud pcOne).options_ :=
  ⟨(claim_C9 (ExpertEncoder.fromPointCloud pcOne) 1 8).2.1 0 key_quantization_bits (-1)
      (Or.inl (by decide)),
    (claim_C9 (ExpertEncoder.fromPointCloud pcOne) 1 8).2.2.2.2.2.1 (by decide) pcOne⟩

/-- C10: the encode entry point is a deterministic function of the bound
geometry and the configuration — two selector instances with equal
point-cloud view, mesh view and options produce identical status/buffer
results, and the two selection procedures agree on equal options. -/
theorem claim_C10 (delegate : EncodeDelegate) (e1 e2 : ExpertEncoder)
    (buf : EncoderBuffer) (hpc : e1.point_cloud_ = e2.point_cloud_)
    (hms : e1.mesh_ = e2.mesh_) (ho : e1.options_ = e2.options_) :
    ExpertEncoder.EncodeToBuffer delegate e1 buf =
        ExpertEncoder.EncodeToBuffer delegate e2 buf ∧
      (∀ pc, encodePointCloudSelect pc e1.options_ =
        encodePointCloudSelect pc e2.options_) ∧
      encodeMeshSelect e1.options_ = encodeMeshSelect e2.options_ := by
  obtain ⟨pc1, m1, o1⟩ := e1
  obtain ⟨pc2, m2, o2⟩ := e2
  cases hpc
  cases hms
  cases ho
  exact ⟨rfl, fun _ => rfl, rfl⟩

/-- C10, witness: two selectors constructed over the same mesh with the same
(default) configuration produce identical results. -/
theorem claim_C10_witness :
    ExpertEncoder.EncodeToBuffer trivialDelegate (ExpertEncoder.fromMesh meshSample)
        emptyBuffer =
      ExpertEncoder.EncodeToBuffer trivialDelegate (ExpertEncoder.fromMesh meshSample)
        emptyBuffer :=
  (claim_C10 trivialDelegate (ExpertEncoder.fromMesh meshSample)
    (ExpertEncoder.fromMesh meshSample) emptyBuffer rfl rfl rfl).1

end Draco
